import Mathlib

/-!
Verification development for the multiplayer PvP battle core
(src/src/multiplayer_pvp.rs).

The battle resolution function `mult_calculate_turn`, the element
conversion `convert_num_to_element`, the end-of-turn handlers and the
action handlers are embedded shallowly below.  Machine integers are
modelled as `Nat`/`Int` with the width-sensitive casts made explicit
(usize is taken to be 64 bits wide, matching the 64-bit targets the
game builds for).  The `f32` type-advantage multipliers are modelled
as exact rationals; every concrete multiplier used in a witness or a
counterexample below is exactly representable in `f32`, and the
products taken at those points are exact in `f32` arithmetic as well.
-/

/-- Width of usize on the target platform: 2 to the 64. -/
def USIZE_MOD : ℕ := 2 ^ 64

/-- Width of the non-negative half of isize: 2 to the 63. -/
def ISIZE_HALF : ℕ := 2 ^ 63

/-- Rust cast of a real (f32) value to usize, as in
`(x: f32).trunc() as usize`: truncation toward zero followed by the
saturating float-to-int cast (negative values clamp to 0, values at or
above 2^64 clamp to 2^64 - 1).  On a non-negative rational, truncation
toward zero coincides with the floor; on a negative one both routes
clamp to 0, so `Int.toNat` of the floor gives the same result. -/
def f2usize (q : ℚ) : ℕ := min (Int.toNat ⌊q⌋) (USIZE_MOD - 1)

/-- Rust cast `usize as isize`: reinterpretation of the 64-bit pattern,
so values at or above 2^63 wrap around to negative integers. -/
def usize2isize (n : ℕ) : ℤ := if n < ISIZE_HALF then (n : ℤ) else (n : ℤ) - USIZE_MOD

/-- Rust cast `isize as usize`: reinterpretation of the 64-bit pattern,
i.e. reduction modulo 2^64. -/
def isize2usize (z : ℤ) : ℕ := (z % (USIZE_MOD : ℤ)).toNat

/-- The type-advantage table (crate::world::TypeSystem).  The source
stores an immutable 8 x 8 matrix `type_modifier : [[f32; 8]; 8]` indexed
by attacker element then defender element; it is modelled here as a
total function on indices with rational entries (the source indexing is
only ever performed with the 8 valid element identifiers 0-7, and the
theorems below restrict element arguments accordingly). -/
structure TypeSystem where
  type_modifier : ℕ → ℕ → ℚ

/-- Base damage one direction, lines 997-1028 of
src/src/multiplayer_pvp.rs: zero when the attack does not exceed the
defense, otherwise the difference (computed in u8 without underflow
because of the guard). -/
def baseDamage (atk dfn : ℕ) : ℕ := if atk ≤ dfn then 0 else atk - dfn

/-- Shallow embedding of `mult_calculate_turn`
(src/src/multiplayer_pvp.rs lines 975-1086).  Stat and action arguments
are the u8 parameters of the source; the result pair is the `(isize,
isize)` return value.  The mutation sequence of the source is rendered
as one expression: the defend short-circuit (line 988), the two base
damages (lines 997-1028), then each direction is rewritten by its
elemental branch (action 2) or special branch (action 3, which adds the
first component of a recursive call with that side's action forced to 0
- cast isize to usize, added with wrapping usize addition - and then
applies the elemental multiplier), and finally both usize components
are cast to isize. -/
def mult_calculate_turn (player_atk player_crt player_def player_type player_action
    enemy_atk enemy_crt enemy_def enemy_type enemy_action : ℕ)
    (type_system : TypeSystem) : ℤ × ℤ :=
  if player_action = 1 ∨ enemy_action = 1 then
    (0, 0)
  else
    (usize2isize
      (if player_action = 2 then
        f2usize (type_system.type_modifier player_type enemy_type *
          (baseDamage player_atk enemy_def : ℚ))
      else if player_action = 3 then
        f2usize (type_system.type_modifier player_type enemy_type *
          (((baseDamage player_atk enemy_def +
             isize2usize (mult_calculate_turn player_atk player_crt player_def player_type 0
               enemy_atk enemy_crt enemy_def enemy_type enemy_action type_system).1) %
             USIZE_MOD : ℕ) : ℚ))
      else baseDamage player_atk enemy_def),
     usize2isize
      (if enemy_action = 2 then
        f2usize (type_system.type_modifier enemy_type player_type *
          (baseDamage enemy_atk player_def : ℚ))
      else if enemy_action = 3 then
        f2usize (type_system.type_modifier enemy_type player_type *
          (((baseDamage enemy_atk player_def +
             isize2usize (mult_calculate_turn player_atk player_crt player_def player_type
               player_action enemy_atk enemy_crt enemy_def enemy_type 0 type_system).2) %
             USIZE_MOD : ℕ) : ℚ))
      else baseDamage enemy_atk player_def))
termination_by (if player_action = 3 then 1 else 0) + (if enemy_action = 3 then 1 else 0)
decreasing_by
  · simp_all
  · simp_all

/-- The damage one attacker deals to one defender in a turn where
neither side defends: the common shape of the two independent
directional computations inside `mult_calculate_turn`.  Action 2
applies the elemental multiplier to the base damage; action 3 ends up
applying the multiplier to twice the base damage, because the special
branch adds the attack-only damage of its recursive call on top of the
base damage already stored in the accumulator. -/
def dirDamage (t : TypeSystem) (aatk aty aact ddef dty : ℕ) : ℕ :=
  if aact = 2 then
    f2usize (t.type_modifier aty dty * (baseDamage aatk ddef : ℚ))
  else if aact = 3 then
    f2usize (t.type_modifier aty dty *
      ((baseDamage aatk ddef + baseDamage aatk ddef : ℕ) : ℚ))
  else baseDamage aatk ddef

/-- Number of nested invocations of `mult_calculate_turn` reached from
one top-level call, mirroring its recursion structure invocation for
invocation: the defend short-circuit returns before any recursion; the
player special branch calls back with the player action forced to 0 and
the enemy action unchanged; the enemy special branch calls back with
the enemy action forced to 0 and the player action unchanged. -/
def specialCallDepth (player_action enemy_action : ℕ) : ℕ :=
  if player_action = 1 ∨ enemy_action = 1 then 1
  else
    1 + max
      (if _h : player_action = 3 then specialCallDepth 0 enemy_action else 0)
      (if _h : enemy_action = 3 then specialCallDepth player_action 0 else 0)
termination_by (if player_action = 3 then 1 else 0) + (if enemy_action = 3 then 1 else 0)
decreasing_by
  · simp_all
  · simp_all

/-- A type table all of whose entries are 3/2 (exactly representable in
f32), used by witnesses and counterexamples. -/
def exTable : TypeSystem := TypeSystem.mk (fun _ _ => 3 / 2)

/-- A type table all of whose entries are the non-negative value 2^64
(exactly representable in f32), used to exhibit the usize-to-isize wrap
of the damage result. -/
def hugeTable : TypeSystem := TypeSystem.mk (fun _ _ => 2 ^ 64)

/-- All multipliers of the table are non-negative. -/
def nonnegTable (t : TypeSystem) : Prop := ∀ i j, 0 ≤ t.type_modifier i j

/-- Every multiplier of the table, scaled by the largest combined base
damage an 8-bit stat pair can produce (2 * 255 = 510), stays below
2^63, so no elemental or special damage can reach the usize-to-isize
wrap. -/
def smallTable (t : TypeSystem) : Prop :=
  ∀ i j, t.type_modifier i j * 510 < (ISIZE_HALF : ℚ)

/-- The element enumeration (crate::monster::Element).  Modelled from
the spec: a closed enumeration of 8 typing categories with identifiers
0-7; the variant names are those matched in `convert_num_to_element`
(src/src/multiplayer_pvp.rs lines 678-691). -/
inductive Element
  | Scav
  | Growth
  | Ember
  | Flood
  | Rad
  | Robot
  | Clean
  | Filth
deriving DecidableEq

/-- The wire identifier of an element (the enum discriminant cast to an
integer by the source when building payloads). -/
def elemIndex : Element → ℕ
  | .Scav => 0
  | .Growth => 1
  | .Ember => 2
  | .Flood => 3
  | .Rad => 4
  | .Robot => 5
  | .Clean => 6
  | .Filth => 7

/-- Result of converting a wire-received element number: either an
element, or termination of the whole process with the given exit
code. -/
inductive ConvertResult
  | ok (e : Element)
  | processExit (code : ℕ)
deriving DecidableEq

/-- Shallow embedding of `convert_num_to_element`
(src/src/multiplayer_pvp.rs lines 678-691): the eight valid indices map
to their variants, anything else runs `std::process::exit(256)`,
modelled as the `processExit` result. -/
def convert_num_to_element (num : ℕ) : ConvertResult :=
  match num with
  | 0 => .ok .Scav
  | 1 => .ok .Growth
  | 2 => .ok .Ember
  | 3 => .ok .Flood
  | 4 => .ok .Rad
  | 5 => .ok .Robot
  | 6 => .ok .Clean
  | 7 => .ok .Filth
  | _ => .processExit 256

/-- Terminal classification made by the end-of-turn handlers. -/
inductive BattleOutcome
  | draw
  | opponentWins
  | localWins
  | ongoing
deriving DecidableEq

/-- Shallow embedding of the resolution tail shared verbatim by
`client_end_turn_handler` (src/src/multiplayer_pvp.rs lines 389-417)
and `host_end_turn_handler` (lines 646-674): the local health loses the
second component of the turn result, the enemy health loses the first,
and then the ladder of checks runs - both at or below zero is a draw,
then local at or below zero means the opponent won, then enemy at or
below zero means the local side won, and otherwise no state transition
is inserted and the battle goes on.  Returned are the two updated
health values and the outcome reached. -/
def end_turn_resolve (local_hp enemy_hp : ℤ) (turn_result : ℤ × ℤ) :
    ℤ × ℤ × BattleOutcome :=
  let new_local := local_hp - turn_result.2
  let new_enemy := enemy_hp - turn_result.1
  (new_local, new_enemy,
    if new_local ≤ 0 ∧ new_enemy ≤ 0 then .draw
    else if new_local ≤ 0 then .opponentWins
    else if new_enemy ≤ 0 then .localWins
    else .ongoing)

/-- The three wire message kinds (crate::networking::BattleAction).
Modelled from the spec: AnnounceElement (called MonsterType in the
source), StartTurn and FinishTurn. -/
inductive BattleAction
  | monsterType
  | startTurn
  | finishTurn
deriving DecidableEq

/-- A wire message (crate::networking::Message).  Modelled from the
spec: an action kind together with a variable-length byte payload. -/
structure WireMessage where
  action : BattleAction
  payload : List ℕ
deriving DecidableEq

/-- Modelled from the spec: the codec contract of section 4.1 -
`deserialize(bytes) -> Message, failing with a MalformedMessage
condition if the byte length or decoded tag is inconsistent with the
declared action kind`.  The Message and BattleAction types and the
bincode encoding live outside src/, so the envelope is modelled
abstractly as a leading tag byte followed by the payload bytes; a
MonsterType payload is the 8 bytes of a pointer-width integer, a
StartTurn or FinishTurn payload is exactly the 5 stat bytes.  `none` is
the MalformedMessage condition. -/
def deserializeMessage (bytes : List ℕ) : Option WireMessage :=
  match bytes with
  | [] => none
  | tag :: payload =>
    if tag = 0 ∧ payload.length = 8 then some (WireMessage.mk .monsterType payload)
    else if tag = 1 ∧ payload.length = 5 then some (WireMessage.mk .startTurn payload)
    else if tag = 2 ∧ payload.length = 5 then some (WireMessage.mk .finishTurn payload)
    else none

/-- What handling one inbound datagram does to the process. -/
inductive RecvOutcome
  | dispatched (m : WireMessage)
  | processAbort
deriving DecidableEq

/-- Shallow embedding of the per-datagram handling of `recv_packets`
(src/src/multiplayer_pvp.rs lines 163-213): the received bytes go
through `bincode::deserialize(..).unwrap()`, so a malformed datagram
does not produce an error value - the unwrap panics and takes the
process down (and a too-short payload would equally panic at the
`payload[0]` to `payload[4]` indexing).  A well-formed message is
dispatched to the event writers and state updates. -/
def recv_handle_datagram (bytes : List ℕ) : RecvOutcome :=
  match deserializeMessage bytes with
  | none => .processAbort
  | some m => .dispatched m

/-- One observable step of an action handler, in program order. -/
inductive HandlerEv
  | setTurnFlag (b : Bool)
  | sendMessage (a : BattleAction) (payload : List ℕ)
  | raiseLocalEvent
  | cacheData (act atk crt dfn ele : ℕ)
  | cacheAction (act : ℕ)
deriving DecidableEq

/-- Is this event the send of a wire message? -/
def isSendEv : HandlerEv → Bool
  | .sendMessage _ _ => true
  | _ => false

/-- Is this event the flip of the local TurnFlag to false (the
WaitingForOpponent state)? -/
def isFlipFalseEv : HandlerEv → Bool
  | .setTurnFlag false => true
  | _ => false

/-- Shallow embedding of one branch of `client_action_handler`
(src/src/multiplayer_pvp.rs lines 252-334) as its sequence of
observable steps.  All four key branches are identical except for the
action id constant: first `turn.0 = false`, then the FinishTurn message
with the 5-byte payload is sent on the socket, then the local
ClientActionEvent is raised, then the chosen action is cached. -/
def client_action_trace (act atk crt dfn ele : ℕ) : List HandlerEv :=
  [HandlerEv.setTurnFlag false,
   HandlerEv.sendMessage .finishTurn [act, atk, crt, dfn, ele],
   HandlerEv.raiseLocalEvent,
   HandlerEv.cacheAction act]

/-- Shallow embedding of one branch of `host_action_handler`
(src/src/multiplayer_pvp.rs lines 479-590) as its sequence of
observable steps.  All four key branches are identical except for the
action id constant: first `turn.0 = false`, then the StartTurn message
with the 5-byte payload is sent on the socket, then the just-sent
snapshot is cached as battle data, then the chosen action is cached. -/
def host_action_trace (act atk crt dfn ele : ℕ) : List HandlerEv :=
  [HandlerEv.setTurnFlag false,
   HandlerEv.sendMessage .startTurn [act, atk, crt, dfn, ele],
   HandlerEv.cacheData act atk crt dfn ele,
   HandlerEv.cacheAction act]

/-- The send event strictly precedes the flip of the TurnFlag to false
in the trace: position of the first send is before the position of the
first flip, and a send is present.  Each trace below contains exactly
one send and exactly one flip, so this coincides with any other
reading of the ordering claim. -/
def sendBeforeFlip (tr : List HandlerEv) : Prop :=
  tr.findIdx isSendEv < tr.findIdx isFlipFalseEv ∧ tr.findIdx isSendEv < tr.length

/-- The flip of the TurnFlag to false strictly precedes the send event
in the trace, and a flip is present. -/
def flipBeforeSend (tr : List HandlerEv) : Prop :=
  tr.findIdx isFlipFalseEv < tr.findIdx isSendEv ∧ tr.findIdx isFlipFalseEv < tr.length

theorem baseDamage_le (atk dfn : ℕ) : baseDamage atk dfn ≤ atk := by
  unfold baseDamage
  split <;> omega

theorem baseDamage_cast (atk dfn : ℕ) :
    (baseDamage atk dfn : ℤ) = max 0 ((atk : ℤ) - dfn) := by
  unfold baseDamage
  rcases le_or_lt atk dfn with h | h
  · rw [if_pos h, max_eq_left (by omega)]
    simp
  · rw [if_neg (by omega), max_eq_right (by omega)]
    omega

theorem usize2isize_of_lt (n : ℕ) (h : n < ISIZE_HALF) : usize2isize n = (n : ℤ) := by
  simp [usize2isize, h]

theorem usize_roundtrip (n : ℕ) (h : n < USIZE_MOD) : isize2usize (usize2isize n) = n := by
  unfold isize2usize usize2isize
  unfold USIZE_MOD ISIZE_HALF at *
  split <;> omega

theorem u8_lt_half (n : ℕ) (h : n ≤ 255) : n < ISIZE_HALF := by
  unfold ISIZE_HALF
  calc n ≤ 255 := h
    _ < 2 ^ 63 := by norm_num

theorem calc_turn_fst_attack (player_atk player_crt player_def player_type
    enemy_atk enemy_crt enemy_def enemy_type enemy_action : ℕ) (t : TypeSystem)
    (hea : enemy_action ≠ 1) :
    (mult_calculate_turn player_atk player_crt player_def player_type 0
      enemy_atk enemy_crt enemy_def enemy_type enemy_action t).1 =
      usize2isize (baseDamage player_atk enemy_def) := by
  unfold mult_calculate_turn
  simp [hea]

theorem calc_turn_snd_attack (player_atk player_crt player_def player_type player_action
    enemy_atk enemy_crt enemy_def enemy_type : ℕ) (t : TypeSystem)
    (hpa : player_action ≠ 1) :
    (mult_calculate_turn player_atk player_crt player_def player_type player_action
      enemy_atk enemy_crt enemy_def enemy_type 0 t).2 =
      usize2isize (baseDamage enemy_atk player_def) := by
  unfold mult_calculate_turn
  simp [hpa]

/-- Decomposition of `mult_calculate_turn` outside the defend
short-circuit: each component is the directional damage of one side
cast usize to isize, provided the attack stats are small enough (u8
stats always are) that the inner isize casts and the wrapping addition
do not wrap. -/
theorem calc_turn_eq_dir (player_atk player_crt player_def player_type player_action
    enemy_atk enemy_crt enemy_def enemy_type enemy_action : ℕ) (t : TypeSystem)
    (hpa : player_action ≠ 1) (hea : enemy_action ≠ 1)
    (hp : player_atk < ISIZE_HALF) (he : enemy_atk < ISIZE_HALF) :
    mult_calculate_turn player_atk player_crt player_def player_type player_action
      enemy_atk enemy_crt enemy_def enemy_type enemy_action t =
      (usize2isize (dirDamage t player_atk player_type player_action enemy_def enemy_type),
       usize2isize (dirDamage t enemy_atk enemy_type enemy_action player_def player_type)) := by
  have hbp : baseDamage player_atk enemy_def < ISIZE_HALF :=
    lt_of_le_of_lt (baseDamage_le _ _) hp
  have hbe : baseDamage enemy_atk player_def < ISIZE_HALF :=
    lt_of_le_of_lt (baseDamage_le _ _) he
  have hmod : ISIZE_HALF + ISIZE_HALF = USIZE_MOD := by
    unfold ISIZE_HALF USIZE_MOD
    norm_num
  unfold mult_calculate_turn
  rw [if_neg (by tauto)]
  rw [calc_turn_fst_attack _ _ _ _ _ _ _ _ _ _ hea]
  rw [calc_turn_snd_attack _ _ _ _ _ _ _ _ _ _ hpa]
  rw [usize_roundtrip _ (by omega), usize_roundtrip _ (by omega)]
  rw [Nat.mod_eq_of_lt (by omega), Nat.mod_eq_of_lt (by omega)]
  unfold dirDamage
  rfl

theorem calc_turn_defend (player_atk player_crt player_def player_type player_action
    enemy_atk enemy_crt enemy_def enemy_type enemy_action : ℕ) (t : TypeSystem)
    (h : player_action = 1 ∨ enemy_action = 1) :
    mult_calculate_turn player_atk player_crt player_def player_type player_action
      enemy_atk enemy_crt enemy_def enemy_type enemy_action t = (0, 0) := by
  unfold mult_calculate_turn
  rw [if_pos h]

theorem f2usize_lt (m : ℚ) (s : ℕ) (hm : 0 ≤ m) (hs : s ≤ 510)
    (hb : m * 510 < (ISIZE_HALF : ℚ)) : f2usize (m * (s : ℚ)) < ISIZE_HALF := by
  have h1 : m * (s : ℚ) ≤ m * 510 := by
    apply mul_le_mul_of_nonneg_left _ hm
    exact_mod_cast hs
  have h2 : m * (s : ℚ) < (ISIZE_HALF : ℚ) := lt_of_le_of_lt h1 hb
  have h3 : ⌊m * (s : ℚ)⌋ < (ISIZE_HALF : ℤ) := by
    rw [Int.floor_lt]
    exact_mod_cast h2
  unfold f2usize
  have hpos : 0 < ISIZE_HALF := by
    unfold ISIZE_HALF
    positivity
  have h4 : (⌊m * (s : ℚ)⌋).toNat < ISIZE_HALF := by omega
  exact lt_of_le_of_lt (min_le_left _ _) h4

theorem dirDamage_lt (t : TypeSystem) (aatk aty aact ddef dty : ℕ)
    (ha : aatk ≤ 255) (hnn : 0 ≤ t.type_modifier aty dty)
    (hsm : t.type_modifier aty dty * 510 < (ISIZE_HALF : ℚ)) :
    dirDamage t aatk aty aact ddef dty < ISIZE_HALF := by
  have hb : baseDamage aatk ddef ≤ 255 := le_trans (baseDamage_le _ _) ha
  unfold dirDamage
  split
  · exact f2usize_lt _ _ hnn (by omega) hsm
  · split
    · exact f2usize_lt _ _ hnn (by omega) hsm
    · exact u8_lt_half _ hb

set_option maxRecDepth 10000 in
/-- C1: the claim says the special action (id 3) deals exactly the
attack-only base damage times the elemental multiplier, truncated.  At
the concrete input below (player: atk 10, element 0, action special;
enemy: def 1, element 1, action attack; all multipliers 3/2) the claim
predicts floor(3/2 * 9) = 13, but `mult_calculate_turn` returns 27 =
floor(3/2 * 18): the special branch adds the recursive attack damage on
top of the base damage already in the accumulator, doubling it before
the multiplier is applied. -/
theorem C1_counterexample :
    (mult_calculate_turn 10 0 0 0 3 0 0 1 1 0 exTable).1 = 27 ∧
    ⌊exTable.type_modifier 0 1 * ((baseDamage 10 1 : ℕ) : ℚ)⌋ = 13 ∧
    (mult_calculate_turn 10 0 0 0 3 0 0 1 1 0 exTable).1 ≠
      ⌊exTable.type_modifier 0 1 * ((baseDamage 10 1 : ℕ) : ℚ)⌋ := by
  have h1 : (mult_calculate_turn 10 0 0 0 3 0 0 1 1 0 exTable).1 = 27 := by
    simp [mult_calculate_turn, exTable, baseDamage, f2usize, usize2isize, isize2usize,
      USIZE_MOD, ISIZE_HALF]
    norm_num
  have h2 : ⌊exTable.type_modifier 0 1 * ((baseDamage 10 1 : ℕ) : ℚ)⌋ = 13 := by
    norm_num [exTable, baseDamage]
  refine ⟨h1, h2, ?_⟩
  rw [h1, h2]
  omega

/-- C1 (amended): with u8 stats, valid element identifiers and the
enemy not defending, the special action (id 3) deals the attack-only
base damage counted twice - once from the accumulator and once from
the recursive attack-only call - times the elemental multiplier,
truncated toward zero and cast usize to isize. -/
theorem C1_special_double (player_atk player_crt player_def player_type
    enemy_atk enemy_crt enemy_def enemy_type enemy_action : ℕ) (t : TypeSystem)
    (hea : enemy_action ≠ 1) (hp : player_atk ≤ 255) (he : enemy_atk ≤ 255)
    (_hpt : player_type < 8) (_het : enemy_type < 8) :
    (mult_calculate_turn player_atk player_crt player_def player_type 3
      enemy_atk enemy_crt enemy_def enemy_type enemy_action t).1 =
      usize2isize (f2usize (t.type_modifier player_type enemy_type *
        ((baseDamage player_atk enemy_def + baseDamage player_atk enemy_def : ℕ) : ℚ))) := by
  rw [calc_turn_eq_dir _ _ _ _ _ _ _ _ _ _ _ (by omega) hea (u8_lt_half _ hp) (u8_lt_half _ he)]
  unfold dirDamage
  norm_num

theorem C1_witness :
    ((0 : ℕ) ≠ 1) ∧
    (mult_calculate_turn 10 0 0 0 3 0 0 1 1 0 exTable).1 =
      usize2isize (f2usize (exTable.type_modifier 0 1 *
        ((baseDamage 10 1 + baseDamage 10 1 : ℕ) : ℚ))) :=
  ⟨by decide,
   C1_special_double 10 0 0 0 0 0 1 1 0 exTable (by decide) (by norm_num) (by norm_num)
     (by norm_num) (by norm_num)⟩

/-- C2: if either side declares the defend action (id 1), the
resolution function returns the damage pair (0, 0), whatever the other
stats, elements and the other action are. -/
theorem C2_defend_nullifies (player_atk player_crt player_def player_type player_action
    enemy_atk enemy_crt enemy_def enemy_type enemy_action : ℕ) (t : TypeSystem)
    (h : player_action = 1 ∨ enemy_action = 1) :
    mult_calculate_turn player_atk player_crt player_def player_type player_action
      enemy_atk enemy_crt enemy_def enemy_type enemy_action t = (0, 0) :=
  calc_turn_defend _ _ _ _ _ _ _ _ _ _ t h

theorem C2_witness :
    ((1 : ℕ) = 1 ∨ (0 : ℕ) = 1) ∧
    mult_calculate_turn 10 2 3 4 1 9 8 7 6 0 exTable = (0, 0) :=
  ⟨Or.inl rfl, C2_defend_nullifies 10 2 3 4 1 9 8 7 6 0 exTable (Or.inl rfl)⟩

/-- C3: when both actions are the plain attack (id 0) and the stats are
u8 values, the damage each direction is max(0, attacker attack minus
defender defense); in particular an attack at or below the opposing
defense contributes exactly 0, never a negative value. -/
theorem C3_plain_attack (player_atk player_crt player_def player_type
    enemy_atk enemy_crt enemy_def enemy_type : ℕ) (t : TypeSystem)
    (hp : player_atk ≤ 255) (he : enemy_atk ≤ 255) :
    mult_calculate_turn player_atk player_crt player_def player_type 0
      enemy_atk enemy_crt enemy_def enemy_type 0 t =
      (max 0 ((player_atk : ℤ) - enemy_def), max 0 ((enemy_atk : ℤ) - player_def)) ∧
    (player_atk ≤ enemy_def →
      (mult_calculate_turn player_atk player_crt player_def player_type 0
        enemy_atk enemy_crt enemy_def enemy_type 0 t).1 = 0) ∧
    (enemy_atk ≤ player_def →
      (mult_calculate_turn player_atk player_crt player_def player_type 0
        enemy_atk enemy_crt enemy_def enemy_type 0 t).2 = 0) := by
  have h := calc_turn_eq_dir player_atk player_crt player_def player_type 0
    enemy_atk enemy_crt enemy_def enemy_type 0 t (by omega) (by omega)
    (u8_lt_half _ hp) (u8_lt_half _ he)
  have hd : dirDamage t player_atk player_type 0 enemy_def enemy_type =
      baseDamage player_atk enemy_def := by
    unfold dirDamage
    norm_num
  have hd' : dirDamage t enemy_atk enemy_type 0 player_def player_type =
      baseDamage enemy_atk player_def := by
    unfold dirDamage
    norm_num
  rw [h, hd, hd']
  rw [usize2isize_of_lt _ (lt_of_le_of_lt (baseDamage_le _ _) (u8_lt_half _ hp)),
      usize2isize_of_lt _ (lt_of_le_of_lt (baseDamage_le _ _) (u8_lt_half _ he))]
  refine ⟨by rw [baseDamage_cast, baseDamage_cast], ?_, ?_⟩
  · intro hle
    simp [baseDamage, hle]
  · intro hle
    simp [baseDamage, hle]

theorem C3_witness :
    ((10 : ℕ) ≤ 255) ∧ ((3 : ℕ) ≤ 255) ∧
    mult_calculate_turn 10 5 2 2 0 3 5 1 1 0 exTable =
      (max 0 ((10 : ℤ) - 1), max 0 ((3 : ℤ) - 2)) :=
  ⟨by norm_num, by norm_num,
   (C3_plain_attack 10 5 2 2 3 5 1 1 exTable (by norm_num) (by norm_num)).1⟩

/-- C4: for u8 stats and valid element identifiers, resolving with A as
the player side and B as the enemy side yields the swap of the pair
obtained with the roles exchanged, so the two peers computing the turn
independently agree on both damages. -/
theorem C4_role_swap (player_atk player_crt player_def player_type player_action
    enemy_atk enemy_crt enemy_def enemy_type enemy_action : ℕ) (t : TypeSystem)
    (hp : player_atk ≤ 255) (he : enemy_atk ≤ 255)
    (_hpt : player_type < 8) (_het : enemy_type < 8) :
    mult_calculate_turn player_atk player_crt player_def player_type player_action
      enemy_atk enemy_crt enemy_def enemy_type enemy_action t =
      ((mult_calculate_turn enemy_atk enemy_crt enemy_def enemy_type enemy_action
         player_atk player_crt player_def player_type player_action t).2,
       (mult_calculate_turn enemy_atk enemy_crt enemy_def enemy_type enemy_action
         player_atk player_crt player_def player_type player_action t).1) := by
  by_cases hd : player_action = 1 ∨ enemy_action = 1
  · rw [calc_turn_defend _ _ _ _ _ _ _ _ _ _ t hd,
        calc_turn_defend _ _ _ _ _ _ _ _ _ _ t (Or.symm hd)]
  · push_neg at hd
    rw [calc_turn_eq_dir _ _ _ _ _ _ _ _ _ _ t hd.1 hd.2
          (u8_lt_half _ hp) (u8_lt_half _ he),
        calc_turn_eq_dir _ _ _ _ _ _ _ _ _ _ t hd.2 hd.1
          (u8_lt_half _ he) (u8_lt_half _ hp)]

theorem C4_witness :
    ((10 : ℕ) ≤ 255) ∧ ((20 : ℕ) ≤ 255) ∧ ((3 : ℕ) < 8) ∧ ((6 : ℕ) < 8) ∧
    mult_calculate_turn 10 1 2 3 0 20 4 5 6 2 exTable =
      ((mult_calculate_turn 20 4 5 6 2 10 1 2 3 0 exTable).2,
       (mult_calculate_turn 20 4 5 6 2 10 1 2 3 0 exTable).1) :=
  ⟨by norm_num, by norm_num, by norm_num, by norm_num,
   C4_role_swap 10 1 2 3 0 20 4 5 6 2 exTable (by norm_num) (by norm_num)
     (by norm_num) (by norm_num)⟩

set_option maxRecDepth 10000 in
/-- C10: the claim says non-negative multipliers make both returned
damages non-negative.  With every multiplier equal to the non-negative
value 2^64, the elemental damage saturates the f32-to-usize cast at
2^64 - 1 and the final `as isize` cast wraps it to -1: the first
component of the result is negative. -/
theorem C10_counterexample :
    nonnegTable hugeTable ∧
    (mult_calculate_turn 2 0 0 0 2 0 0 1 0 0 hugeTable).1 < 0 := by
  constructor
  · intro i j
    unfold hugeTable
    norm_num
  · have h : (mult_calculate_turn 2 0 0 0 2 0 0 1 0 0 hugeTable).1 = -1 := by
      simp [mult_calculate_turn, hugeTable, baseDamage, f2usize, usize2isize, isize2usize,
        USIZE_MOD, ISIZE_HALF]
      norm_num
    rw [h]
    omega

/-- C10 (amended): for u8 stats and valid element identifiers, if every
multiplier of the table is non-negative and small enough that it times
the largest combined u8 base damage (510) stays below 2^63, both
components of the returned damage pair are non-negative. -/
theorem C10_outputs_nonneg (player_atk player_crt player_def player_type player_action
    enemy_atk enemy_crt enemy_def enemy_type enemy_action : ℕ) (t : TypeSystem)
    (hnn : nonnegTable t) (hsm : smallTable t)
    (hp : player_atk ≤ 255) (he : enemy_atk ≤ 255)
    (_hpt : player_type < 8) (_het : enemy_type < 8) :
    0 ≤ (mult_calculate_turn player_atk player_crt player_def player_type player_action
      enemy_atk enemy_crt enemy_def enemy_type enemy_action t).1 ∧
    0 ≤ (mult_calculate_turn player_atk player_crt player_def player_type player_action
      enemy_atk enemy_crt enemy_def enemy_type enemy_action t).2 := by
  by_cases hd : player_action = 1 ∨ enemy_action = 1
  · rw [calc_turn_defend _ _ _ _ _ _ _ _ _ _ t hd]
    exact ⟨le_refl 0, le_refl 0⟩
  · push_neg at hd
    rw [calc_turn_eq_dir _ _ _ _ _ _ _ _ _ _ t hd.1 hd.2
          (u8_lt_half _ hp) (u8_lt_half _ he)]
    have d1 : dirDamage t player_atk player_type player_action enemy_def enemy_type <
        ISIZE_HALF :=
      dirDamage_lt t _ _ _ _ _ hp (hnn _ _) (hsm _ _)
    have d2 : dirDamage t enemy_atk enemy_type enemy_action player_def player_type <
        ISIZE_HALF :=
      dirDamage_lt t _ _ _ _ _ he (hnn _ _) (hsm _ _)
    rw [usize2isize_of_lt _ d1, usize2isize_of_lt _ d2]
    exact ⟨Int.ofNat_nonneg _, Int.ofNat_nonneg _⟩

theorem C10_witness :
    nonnegTable exTable ∧ smallTable exTable ∧
    (0 ≤ (mult_calculate_turn 10 0 0 0 2 3 0 1 1 3 exTable).1 ∧
     0 ≤ (mult_calculate_turn 10 0 0 0 2 3 0 1 1 3 exTable).2) :=
  ⟨fun i j => by norm_num [exTable],
   fun i j => by norm_num [exTable, ISIZE_HALF],
   C10_outputs_nonneg 10 0 0 0 2 3 0 1 1 3 exTable
     (fun i j => by norm_num [exTable])
     (fun i j => by norm_num [exTable, ISIZE_HALF])
     (by norm_num) (by norm_num) (by norm_num) (by norm_num)⟩

/-- C5: one resolution of an end-of-turn handler subtracts the two
returned damages from the two current health values and then reaches
exactly one of four outcomes determined by the updated pair: both at or
below zero is a draw, only the local health at or below zero is an
opponent win, only the opponent health at or below zero is a local win,
and both above zero continues the battle with no terminal transition. -/
theorem C5_terminal_classification (local_hp enemy_hp : ℤ) (r : ℤ × ℤ) :
    (end_turn_resolve local_hp enemy_hp r).1 = local_hp - r.2 ∧
    (end_turn_resolve local_hp enemy_hp r).2.1 = enemy_hp - r.1 ∧
    ((end_turn_resolve local_hp enemy_hp r).2.2 = BattleOutcome.draw ↔
       local_hp - r.2 ≤ 0 ∧ enemy_hp - r.1 ≤ 0) ∧
    ((end_turn_resolve local_hp enemy_hp r).2.2 = BattleOutcome.opponentWins ↔
       local_hp - r.2 ≤ 0 ∧ 0 < enemy_hp - r.1) ∧
    ((end_turn_resolve local_hp enemy_hp r).2.2 = BattleOutcome.localWins ↔
       0 < local_hp - r.2 ∧ enemy_hp - r.1 ≤ 0) ∧
    ((end_turn_resolve local_hp enemy_hp r).2.2 = BattleOutcome.ongoing ↔
       0 < local_hp - r.2 ∧ 0 < enemy_hp - r.1) := by
  unfold end_turn_resolve
  dsimp only
  refine ⟨rfl, rfl, ?_, ?_, ?_, ?_⟩ <;>
    · split_ifs with h1 h2 h3 <;> simp_all

/-- C6: the claim says a byte sequence whose length or tag is
inconsistent with the declared action kind makes deserialization fail
with a recoverable MalformedMessage condition rather than succeeding or
aborting the process.  On the concrete one-byte datagram [9] (an
invalid tag) the deserializer yields the malformed condition, and the
receive path of the source - `bincode::deserialize(..).unwrap()` -
turns it into a process abort, not a recoverable error. -/
theorem C6_counterexample :
    deserializeMessage [9] = none ∧
    recv_handle_datagram [9] = RecvOutcome.processAbort := by
  constructor
  · rfl
  · rfl

/-- C6 (amended): every inbound byte sequence the codec cannot decode
makes the receive handler abort the process (the unwrap panic of the
source), instead of surfacing a recoverable MalformedMessage error. -/
theorem C6_malformed_aborts (bytes : List ℕ)
    (h : deserializeMessage bytes = none) :
    recv_handle_datagram bytes = RecvOutcome.processAbort := by
  unfold recv_handle_datagram
  rw [h]

theorem C6_witness :
    deserializeMessage [7, 1, 2] = none ∧
    recv_handle_datagram [7, 1, 2] = RecvOutcome.processAbort :=
  ⟨rfl, C6_malformed_aborts [7, 1, 2] rfl⟩

/-- C7: the claim says no call chain of the resolution function is ever
longer than two nested invocations, because each recursive self-call
passes a non-special action.  When both sides declare the special
action (id 3), the player special branch calls back with the enemy
action still special, and that inner call recurses again: the chain
reaches three nested invocations. -/
theorem C7_counterexample :
    specialCallDepth 3 3 = 3 ∧ ¬ specialCallDepth 3 3 ≤ 2 := by
  have h : specialCallDepth 3 3 = 3 := by
    simp [specialCallDepth]
  exact ⟨h, by rw [h]; omega⟩

theorem depth_no_special (player_action enemy_action : ℕ)
    (hpa : player_action ≠ 3) (hea : enemy_action ≠ 3) :
    specialCallDepth player_action enemy_action = 1 := by
  unfold specialCallDepth
  split
  · rfl
  · simp

theorem depth_player_attack (enemy_action : ℕ) :
    specialCallDepth 0 enemy_action ≤ 2 := by
  unfold specialCallDepth
  split
  · omega
  · by_cases hea : enemy_action = 3
    · subst hea
      rw [depth_no_special 0 0 (by omega) (by omega)]
      simp
    · simp [hea]

theorem depth_enemy_attack (player_action : ℕ) :
    specialCallDepth player_action 0 ≤ 2 := by
  unfold specialCallDepth
  split
  · omega
  · by_cases hpa : player_action = 3
    · subst hpa
      rw [depth_no_special 0 0 (by omega) (by omega)]
      simp
    · simp [hpa]

/-- C7 (amended): the recursion of the resolution function is bounded,
but by three nested invocations, not two: each recursive self-call
forces only the recursing side to the plain attack, so when both sides
declare the special action the inner call still sees one special action
and recurses once more. -/
theorem C7_depth_le_three (player_action enemy_action : ℕ) :
    specialCallDepth player_action enemy_action ≤ 3 := by
  unfold specialCallDepth
  split
  · omega
  · have h1 : (if _h : player_action = 3 then specialCallDepth 0 enemy_action else 0) ≤ 2 := by
      split
      · exact depth_player_attack enemy_action
      · omega
    have h2 : (if _h : enemy_action = 3 then specialCallDepth player_action 0 else 0) ≤ 2 := by
      split
      · exact depth_enemy_attack player_action
      · omega
    omega

/-- C8: the claim says that in every local action handler branch the
protocol message is sent on the socket before the local TurnFlag is
flipped to false.  In the source both handlers run `turn.0 = false`
first and send afterwards: on the concrete action-0 branch of either
role, no send precedes the flip. -/
theorem C8_counterexample :
    ¬ sendBeforeFlip (client_action_trace 0 10 20 30 4) ∧
    ¬ sendBeforeFlip (host_action_trace 0 10 20 30 4) := by
  constructor
  · unfold sendBeforeFlip client_action_trace
    decide
  · unfold sendBeforeFlip host_action_trace
    decide

/-- C8 (amended): in every branch of both local action handlers the
flip of the TurnFlag to false comes first and the message send comes
second. -/
theorem C8_flip_precedes_send (act atk crt dfn ele : ℕ) (_h : act ≤ 3) :
    flipBeforeSend (client_action_trace act atk crt dfn ele) ∧
    flipBeforeSend (host_action_trace act atk crt dfn ele) := by
  unfold flipBeforeSend client_action_trace host_action_trace
  simp [List.findIdx_cons, isSendEv, isFlipFalseEv]

theorem C8_witness :
    ((0 : ℕ) ≤ 3) ∧
    (flipBeforeSend (client_action_trace 0 9 9 9 9) ∧
     flipBeforeSend (host_action_trace 0 9 9 9 9)) :=
  ⟨by omega, C8_flip_precedes_send 0 9 9 9 9 (by omega)⟩

/-- C9: converting a wire-received element number succeeds exactly for
the 8 valid identifiers 0-7, yielding the variant with that identifier;
any other number makes the reference behavior terminate the process
(exit code 256). -/
theorem C9_element_conversion (n : ℕ) :
    ((∃ e, convert_num_to_element n = ConvertResult.ok e ∧ elemIndex e = n) ↔ n < 8) ∧
    (8 ≤ n → convert_num_to_element n = ConvertResult.processExit 256) := by
  constructor
  · constructor
    · rintro ⟨e, _, hidx⟩
      subst hidx
      cases e <;> decide
    · intro h
      interval_cases n
      · exact ⟨Element.Scav, rfl, rfl⟩
      · exact ⟨Element.Growth, rfl, rfl⟩
      · exact ⟨Element.Ember, rfl, rfl⟩
      · exact ⟨Element.Flood, rfl, rfl⟩
      · exact ⟨Element.Rad, rfl, rfl⟩
      · exact ⟨Element.Robot, rfl, rfl⟩
      · exact ⟨Element.Clean, rfl, rfl⟩
      · exact ⟨Element.Filth, rfl, rfl⟩
  · intro h
    obtain ⟨k, rfl⟩ : ∃ k, n = k + 8 := ⟨n - 8, by omega⟩
    rfl

theorem C9_witness :
    (∃ e, convert_num_to_element 2 = ConvertResult.ok e ∧ elemIndex e = 2) ∧
    convert_num_to_element 100 = ConvertResult.processExit 256 :=
  ⟨(C9_element_conversion 2).1.mpr (by omega), (C9_element_conversion 100).2 (by omega)⟩
